import Mathlib

/-!
Verification of the dynamic-wallpaper writer core
(`kdynamicwallpapermetadata.h`, `kdynamicwallpaperwriter.cpp`).

The metadata record implementation, the XMP template resource and the Qt/libavif
collaborators are not part of the translated sources; where they are needed they
are modelled from the specification and marked as such in doc comments.
-/

namespace DynamicWallpaper

/-- The enum `KDynamicWallpaperMetaData::CrossFadeMode` from the header. -/
inductive CrossFadeMode where
  | noCrossFade
  | crossFade
  deriving DecidableEq, BEq, Repr

/-- Presence flag `CrossFadeField = 1 << 0` (header). -/
def CrossFadeField : Nat := 1

/-- Presence flag `TimeField = 1 << 1` (header). -/
def TimeField : Nat := 2

/-- Presence flag `SolarAzimuthField = 1 << 2` (header). -/
def SolarAzimuthField : Nat := 4

/-- Presence flag `SolarElevationField = 1 << 3` (header). -/
def SolarElevationField : Nat := 8

/-- Presence flag `IndexField = 1 << 4` (header). -/
def IndexField : Nat := 16

/-- Modelled from the spec: the metadata record state (the private part of
`KDynamicWallpaperMetaData` is not among the translated sources).  A presence
bitmask plus one stored value per field; accessors return the stored value
regardless of presence.  Reals are modelled exactly as rationals. -/
structure KDynamicWallpaperMetaData where
  fields : Nat
  crossFadeMode : CrossFadeMode
  time : ℚ
  solarElevation : ℚ
  solarAzimuth : ℚ
  index : Int
  deriving DecidableEq, Repr

/-- Modelled from the spec: a default-constructed (empty) record: mask 0. -/
def KDynamicWallpaperMetaData.empty : KDynamicWallpaperMetaData :=
  ⟨0, CrossFadeMode.noCrossFade, 0, 0, 0, 0⟩

/-- Modelled from the spec: `setCrossFadeMode` stores the value and sets its bit. -/
def KDynamicWallpaperMetaData.setCrossFadeMode (md : KDynamicWallpaperMetaData)
    (mode : CrossFadeMode) : KDynamicWallpaperMetaData :=
  { md with fields := md.fields ||| CrossFadeField, crossFadeMode := mode }

/-- Modelled from the spec: `setTime` stores the value and sets its bit. -/
def KDynamicWallpaperMetaData.setTime (md : KDynamicWallpaperMetaData)
    (t : ℚ) : KDynamicWallpaperMetaData :=
  { md with fields := md.fields ||| TimeField, time := t }

/-- Modelled from the spec: `setSolarElevation` stores the value and sets its bit. -/
def KDynamicWallpaperMetaData.setSolarElevation (md : KDynamicWallpaperMetaData)
    (e : ℚ) : KDynamicWallpaperMetaData :=
  { md with fields := md.fields ||| SolarElevationField, solarElevation := e }

/-- Modelled from the spec: `setSolarAzimuth` stores the value and sets its bit. -/
def KDynamicWallpaperMetaData.setSolarAzimuth (md : KDynamicWallpaperMetaData)
    (a : ℚ) : KDynamicWallpaperMetaData :=
  { md with fields := md.fields ||| SolarAzimuthField, solarAzimuth := a }

/-- Modelled from the spec: `setIndex` stores the value and sets its bit. -/
def KDynamicWallpaperMetaData.setIndex (md : KDynamicWallpaperMetaData)
    (i : Int) : KDynamicWallpaperMetaData :=
  { md with fields := md.fields ||| IndexField, index := i }

/-- Accessor `isValid()`: true iff the presence bitmask is non-zero. -/
def KDynamicWallpaperMetaData.isValid (md : KDynamicWallpaperMetaData) : Bool :=
  md.fields != 0

/-- A JSON value as stored in a metadata object: Qt JSON booleans and numbers
(doubles are modelled exactly as rationals). -/
inductive JsonValue where
  | jbool : Bool → JsonValue
  | jnum : ℚ → JsonValue
  deriving DecidableEq, Repr

/-- A JSON object: an ordered list of key/value entries (`QJsonObject`). -/
def QJsonObject : Type := List (String × JsonValue)

/-- Key lookup in a JSON object (first match wins). -/
def lookupJson (key : String) : QJsonObject → Option JsonValue
  | [] => none
  | (k, v) :: rest => if k = key then some v else lookupJson key rest

/-- Modelled from the spec: `toJson()` produces an object with exactly the keys
of the set fields (`CrossFade` as a boolean, the numeric fields as numbers),
absent fields omitted entirely. -/
def KDynamicWallpaperMetaData.toJson (md : KDynamicWallpaperMetaData) : QJsonObject :=
  (if md.fields &&& CrossFadeField ≠ 0 then
      [("CrossFade", JsonValue.jbool (md.crossFadeMode == CrossFadeMode.crossFade))]
   else []) ++
  (if md.fields &&& TimeField ≠ 0 then [("Time", JsonValue.jnum md.time)] else []) ++
  (if md.fields &&& SolarAzimuthField ≠ 0 then
      [("SolarAzimuth", JsonValue.jnum md.solarAzimuth)] else []) ++
  (if md.fields &&& SolarElevationField ≠ 0 then
      [("SolarElevation", JsonValue.jnum md.solarElevation)] else []) ++
  (if md.fields &&& IndexField ≠ 0 then
      [("Index", JsonValue.jnum (md.index : ℚ))] else [])

/-- Modelled from the spec: `fromJson(object)` reads whichever of the known keys
are present, sets the corresponding field and presence bit for each, ignores
unknown keys; a malformed value for a recognized key is treated as absent
(for `Index`, a non-integral number is malformed). -/
def KDynamicWallpaperMetaData.fromJson (obj : QJsonObject) : KDynamicWallpaperMetaData where
  fields :=
    (match lookupJson "CrossFade" obj with
      | some (JsonValue.jbool _) => CrossFadeField
      | _ => 0) |||
    (match lookupJson "Time" obj with
      | some (JsonValue.jnum _) => TimeField
      | _ => 0) |||
    (match lookupJson "SolarAzimuth" obj with
      | some (JsonValue.jnum _) => SolarAzimuthField
      | _ => 0) |||
    (match lookupJson "SolarElevation" obj with
      | some (JsonValue.jnum _) => SolarElevationField
      | _ => 0) |||
    (match lookupJson "Index" obj with
      | some (JsonValue.jnum q) => if q.den = 1 then IndexField else 0
      | _ => 0)
  crossFadeMode :=
    match lookupJson "CrossFade" obj with
      | some (JsonValue.jbool b) => if b then CrossFadeMode.crossFade else CrossFadeMode.noCrossFade
      | _ => CrossFadeMode.noCrossFade
  time :=
    match lookupJson "Time" obj with
      | some (JsonValue.jnum q) => q
      | _ => 0
  solarAzimuth :=
    match lookupJson "SolarAzimuth" obj with
      | some (JsonValue.jnum q) => q
      | _ => 0
  solarElevation :=
    match lookupJson "SolarElevation" obj with
      | some (JsonValue.jnum q) => q
      | _ => 0
  index :=
    match lookupJson "Index" obj with
      | some (JsonValue.jnum q) => if q.den = 1 then q.num else 0
      | _ => 0

/-- One call to a metadata setter, with its argument. -/
inductive SetterOp where
  | setCrossFadeMode (mode : CrossFadeMode)
  | setTime (t : ℚ)
  | setSolarElevation (e : ℚ)
  | setSolarAzimuth (a : ℚ)
  | setIndex (i : Int)
  deriving DecidableEq, Repr

/-- Apply one setter call to a record. -/
def applyOp (md : KDynamicWallpaperMetaData) : SetterOp → KDynamicWallpaperMetaData
  | SetterOp.setCrossFadeMode mode => md.setCrossFadeMode mode
  | SetterOp.setTime t => md.setTime t
  | SetterOp.setSolarElevation e => md.setSolarElevation e
  | SetterOp.setSolarAzimuth a => md.setSolarAzimuth a
  | SetterOp.setIndex i => md.setIndex i

/-- Apply a sequence of setter calls to the empty record. -/
def applyOps (ops : List SetterOp) : KDynamicWallpaperMetaData :=
  ops.foldl applyOp KDynamicWallpaperMetaData.empty

/-- The presence flag a setter call contributes. -/
def flagOf : SetterOp → Nat
  | SetterOp.setCrossFadeMode _ => CrossFadeField
  | SetterOp.setTime _ => TimeField
  | SetterOp.setSolarElevation _ => SolarElevationField
  | SetterOp.setSolarAzimuth _ => SolarAzimuthField
  | SetterOp.setIndex _ => IndexField

/-- The bitwise union of the presence flags of a sequence of setter calls. -/
def unionFlags (ops : List SetterOp) : Nat :=
  ops.foldl (fun acc op => acc ||| flagOf op) 0

/-- The observable content of a record: its presence bitmask together with the
value of each field that is present (`none` when absent). -/
def KDynamicWallpaperMetaData.observe (md : KDynamicWallpaperMetaData) :
    Nat × Option CrossFadeMode × Option ℚ × Option ℚ × Option ℚ × Option Int :=
  (md.fields,
   if md.fields &&& CrossFadeField ≠ 0 then some md.crossFadeMode else none,
   if md.fields &&& TimeField ≠ 0 then some md.time else none,
   if md.fields &&& SolarAzimuthField ≠ 0 then some md.solarAzimuth else none,
   if md.fields &&& SolarElevationField ≠ 0 then some md.solarElevation else none,
   if md.fields &&& IndexField ≠ 0 then some md.index else none)

/-! ### Byte-string primitives (`QByteArray` operations used by the writer) -/

/-- Whether `pat` starts the second list. -/
def listStartsWith : List Char → List Char → Bool
  | [], _ => true
  | _ :: _, [] => false
  | p :: ps, c :: cs => p == c && listStartsWith ps cs

/-- Whether `pat` occurs as a contiguous sublist. -/
def occursIn (pat : List Char) : List Char → Bool
  | [] => listStartsWith pat []
  | c :: rest => listStartsWith pat (c :: rest) || occursIn pat rest

/-- Operation `QByteArray::replace(before, after)`: replaces every occurrence of `pat`,
scanning left to right and resuming after each inserted replacement (the
replacement text is not rescanned).  `(c :: rest).drop pat.length` is written
`rest.drop (pat.length - 1)`, which is the same list since `pat ≠ []` holds in
that branch. -/
def replaceAll (pat repl : List Char) : List Char → List Char
  | [] => []
  | c :: rest =>
    if _h : pat ≠ [] ∧ listStartsWith pat (c :: rest) = true then
      repl ++ replaceAll pat repl (rest.drop (pat.length - 1))
    else
      c :: replaceAll pat repl rest
termination_by s => s.length
decreasing_by
  · simp only [List.length_drop, List.length_cons]
    omega
  · simp only [List.length_cons]
    omega

/-- The placeholder token the writer substitutes in the XMP template
(`xmp.replace(QByteArrayLiteral("base64"), base64)`). -/
def placeholderBase64 : List Char := "base64".data

/-! ### Compact JSON text, UTF-8 and base64 (Qt collaborators used by
`serializeMetaData`) -/

def lbrace : Char := Char.ofNat 123

def rbrace : Char := Char.ofNat 125

/-- Comma-join a list of character strings. -/
def joinComma : List (List Char) → List Char
  | [] => []
  | [x] => x
  | x :: y :: rest => x ++ ',' :: joinComma (y :: rest)

/-- A JSON string literal for a key (the keys used here need no escaping). -/
def quoteChars (s : String) : List Char := '"' :: (s.data ++ ['"'])

/-- Decimal digits of a natural number. -/
def natDigits (n : Nat) : List Char := Nat.toDigits 10 n

/-- Decimal rendering of an integer. -/
def intChars (i : Int) : List Char :=
  if i < 0 then '-' :: natDigits i.natAbs else natDigits i.natAbs

/-- Textual rendering of a JSON number.  Integral values render as decimal
integers; for non-integral values this rendering abstracts Qt's double
formatting (the exact digit string of doubles is outside this model). -/
def ratChars (q : ℚ) : List Char :=
  if q.den = 1 then intChars q.num else intChars q.num ++ '/' :: natDigits q.den

/-- Compact text of one JSON value. -/
def jsonValueChars : JsonValue → List Char
  | JsonValue.jbool true => ['t', 'r', 'u', 'e']
  | JsonValue.jbool false => ['f', 'a', 'l', 's', 'e']
  | JsonValue.jnum q => ratChars q

/-- Compact text of one JSON object. -/
def compactJsonObject (o : QJsonObject) : List Char :=
  lbrace :: (joinComma (o.map fun kv => quoteChars kv.1 ++ ':' :: jsonValueChars kv.2) ++ [rbrace])

/-- Compact text of a JSON array of objects
(`QJsonDocument::toJson(QJsonDocument::Compact)`). -/
def compactJsonArray (objs : List QJsonObject) : List Char :=
  '[' :: (joinComma (objs.map compactJsonObject) ++ [']'])

/-- UTF-8 bytes of one character. -/
def utf8Char (c : Char) : List Nat :=
  let n := c.toNat
  if n < 128 then [n]
  else if n < 2048 then [192 + n / 64, 128 + n % 64]
  else if n < 65536 then [224 + n / 4096, 128 + (n / 64) % 64, 128 + n % 64]
  else [240 + n / 262144, 128 + (n / 4096) % 64, 128 + (n / 64) % 64, 128 + n % 64]

/-- UTF-8 bytes of a character string. -/
def utf8Encode (s : List Char) : List Nat :=
  s.foldr (fun c acc => utf8Char c ++ acc) []

/-- The base64 alphabet. -/
def base64Table : List Char :=
  "ABCDEFGHIJKLMNOPQRSTUVWXYZabcdefghijklmnopqrstuvwxyz0123456789+/".data

/-- Character of one 6-bit group. -/
def b64c (i : Nat) : Char := base64Table.getD i 'A'

/-- Standard base64 encoding of a byte sequence (`QByteArray::toBase64`). -/
def base64Encode : List Nat → List Char
  | [] => []
  | [a] => [b64c (a / 4), b64c (a % 4 * 16), '=', '=']
  | [a, b] => [b64c (a / 4), b64c (a % 4 * 16 + b / 16), b64c (b % 16 * 4), '=']
  | a :: b :: c :: rest =>
      b64c (a / 4) :: b64c (a % 4 * 16 + b / 16) :: b64c (b % 16 * 4 + c / 64) ::
        b64c (c % 64) :: base64Encode rest

/-- Function `serializeMetaData` from `kdynamicwallpaperwriter.cpp`: append `toJson()` of
every record (no filtering) into a JSON array, compact-encode, base64-encode,
and replace the placeholder `"base64"` in the XMP template.  Modelled from the
spec: the template resource `:/kdynamicwallpaper/xmp/metadata.xml` is not among
the translated sources, so the template bytes are a parameter here. -/
def serializeMetaData (tpl : List Char) (metaData : List KDynamicWallpaperMetaData) : List Char :=
  replaceAll placeholderBase64
    (base64Encode (utf8Encode (compactJsonArray (metaData.map KDynamicWallpaperMetaData.toJson))))
    tpl

/-! ### Images and the writer state -/

/-- The `QImage` pixel layouts relevant here. -/
inductive ImageFormat where
  | Format_Invalid
  | Format_RGB888
  | Format_ARGB32
  | Format_RGB32
  | Format_Grayscale8
  deriving DecidableEq, Repr

/-- The observable parts of a `QImage`: its pixel layout, size and pixel data. -/
structure QImage where
  format : ImageFormat
  width : Nat
  height : Nat
  bits : List Nat
  deriving DecidableEq, Repr

/-- Modelled from the spec: `QImage::convertToFormat` is an external Qt
collaborator ("the in-memory image/bitmap representation and its pixel-format
conversions (assumed already available)"); it yields the same image in the
requested pixel layout.  The pixel resampling itself is outside this core. -/
def QImage.convertToFormat (img : QImage) (f : ImageFormat) : QImage :=
  { img with format := f }

/-- The enum `KDynamicWallpaperWriter::WallpaperWriterError`. -/
inductive WallpaperWriterError where
  | NoError
  | DeviceError
  | EncoderError
  deriving DecidableEq, Repr

/-- The private state of a writer (`KDynamicWallpaperWriterPrivate`): the
last-error code and message, the image sequence and the metadata sequence.
The stored error message field is `errorStringD`; the public accessor
`errorString` is defined below. -/
structure KDynamicWallpaperWriter where
  wallpaperWriterError : WallpaperWriterError
  errorStringD : String
  images : List QImage
  metaData : List KDynamicWallpaperMetaData
  deriving DecidableEq

/-- A freshly constructed writer: `NoError`, empty message, no images, no
metadata. -/
def KDynamicWallpaperWriter.empty : KDynamicWallpaperWriter :=
  ⟨WallpaperWriterError.NoError, "", [], []⟩

/-- Accessor `error()`: the type of the last error that occurred. -/
def KDynamicWallpaperWriter.error (w : KDynamicWallpaperWriter) : WallpaperWriterError :=
  w.wallpaperWriterError

/-- Accessor `errorString()`: `"No error"` when the last error is `NoError`, else the
stored diagnostic text. -/
def KDynamicWallpaperWriter.errorString (w : KDynamicWallpaperWriter) : String :=
  if w.wallpaperWriterError = WallpaperWriterError.NoError then "No error" else w.errorStringD

/-- Setter `setMetaData`: replaces the metadata sequence wholesale. -/
def KDynamicWallpaperWriter.setMetaData (w : KDynamicWallpaperWriter)
    (metaData : List KDynamicWallpaperMetaData) : KDynamicWallpaperWriter :=
  { w with metaData := metaData }

/-- Setter `setImages`: replaces the image sequence, converting every image to
`Format_RGB888` on the way in. -/
def KDynamicWallpaperWriter.setImages (w : KDynamicWallpaperWriter)
    (images : List QImage) : KDynamicWallpaperWriter :=
  { w with images := images.map fun img => img.convertToFormat ImageFormat.Format_RGB888 }

/-! ### Devices and the encoder collaborator -/

/-- The observable parts of a `QIODevice`: whether it is open, whether its open
mode includes `WriteOnly`, whether an `open(WriteOnly)` call would succeed, the
message `errorString()` would carry after a failed open, and the bytes written
so far. -/
structure QIODevice where
  isOpenB : Bool
  writableMode : Bool
  openWriteSucceeds : Bool
  openErrorMsg : String
  written : List Nat
  deriving DecidableEq, Repr

/-- Probe `QIODevice::isWritable()`: true iff the current open mode includes
`WriteOnly` (false for a device that has never been opened). -/
def QIODevice.isWritable (dev : QIODevice) : Bool := dev.writableMode

/-- Whether `KDynamicWallpaperWriter::flush(QIODevice*)` gets past its
device-opening pre-flight: the device is already open for writing, or it is
closed and opening for writing succeeds. -/
def QIODevice.opensForWriting (dev : QIODevice) : Bool :=
  if dev.isOpenB then dev.writableMode else dev.openWriteSucceeds

/-- A `QFile` object freshly constructed from a file name: not open, no open
mode; `pathWritable` records whether the operating system would let the file be
opened for writing, `openFailMsg` the message a failed open would produce. -/
def mkQFile (pathWritable : Bool) (openFailMsg : String) : QIODevice :=
  ⟨false, false, pathWritable, openFailMsg, []⟩

/-- One frame handed to the encoder: its position in the input sequence, its
image, and the XMP metadata block attached to it. -/
structure AvifFrame where
  idx : Nat
  image : QImage
  xmp : List Char
  deriving DecidableEq

/-- The external libavif collaborator, abstracted: the outcome of
`avifImageRGBToYUV` and of `avifEncoderAddImage` for the frame at each input
position, and `avifEncoderFinish`, which maps the successfully added frames to
either the container bytes or a diagnostic string (`avifResultToString`). -/
structure EncoderEnv where
  convOk : Nat → Bool
  addOk : Nat → Bool
  finish : List AvifFrame → Except String (List Nat)

/-- The per-frame loop of `KDynamicWallpaperWriterPrivate::flush`: each frame
gets the full XMP block attached; a frame whose RGB→YUV conversion fails, or
whose hand-off to the encoder fails, is skipped (`continue`) and the loop moves
on to the next frame. -/
def encodeLoop (env : EncoderEnv) (xmp : List Char) : Nat → List QImage → List AvifFrame
  | _, [] => []
  | i, img :: rest =>
    if env.convOk i then
      if env.addOk i then
        AvifFrame.mk i img xmp :: encodeLoop env xmp (i + 1) rest
      else
        encodeLoop env xmp (i + 1) rest
    else
      encodeLoop env xmp (i + 1) rest

/-- Method `KDynamicWallpaperWriterPrivate::flush`: serialize the metadata, run the
per-frame loop, then finalize the encoder; on success write the produced bytes
to the device, on failure record `EncoderError` with the encoder's diagnostic
text and write nothing. -/
def KDynamicWallpaperWriterPrivate.flush (w : KDynamicWallpaperWriter) (dev : QIODevice)
    (env : EncoderEnv) (tpl : List Char) : KDynamicWallpaperWriter × QIODevice :=
  let xmp := serializeMetaData tpl w.metaData
  let frames := encodeLoop env xmp 0 w.images
  match env.finish frames with
  | Except.ok out => (w, { dev with written := dev.written ++ out })
  | Except.error msg =>
      ({ w with wallpaperWriterError := WallpaperWriterError.EncoderError,
                errorStringD := msg }, dev)

/-- Method `KDynamicWallpaperWriter::flush(QIODevice*)`: the device-opening pre-flight
followed by the private flush; returns the boolean result together with the
final writer and device states. -/
def KDynamicWallpaperWriter.flush (w : KDynamicWallpaperWriter) (dev : QIODevice)
    (env : EncoderEnv) (tpl : List Char) : Bool × KDynamicWallpaperWriter × QIODevice :=
  if dev.isOpenB then
    if !dev.writableMode then
      (false, { w with wallpaperWriterError := WallpaperWriterError.DeviceError,
                       errorStringD := "The device is not open for writing" }, dev)
    else
      let r := KDynamicWallpaperWriterPrivate.flush w dev env tpl
      (true, r.1, r.2)
  else
    if dev.openWriteSucceeds then
      let opened : QIODevice := { dev with isOpenB := true, writableMode := true }
      let r := KDynamicWallpaperWriterPrivate.flush w opened env tpl
      (true, r.1, r.2)
    else
      (false, { w with wallpaperWriterError := WallpaperWriterError.DeviceError,
                       errorStringD := dev.openErrorMsg }, dev)

/-- Probe `KDynamicWallpaperWriter::canWrite(QIODevice*)`:
`return device->isWritable();`. -/
def KDynamicWallpaperWriter.canWriteDevice (dev : QIODevice) : Bool :=
  dev.isWritable

/-- Probe `KDynamicWallpaperWriter::canWrite(const QString&)`: constructs a `QFile`
from the file name and returns `file.isWritable()` without ever opening it. -/
def KDynamicWallpaperWriter.canWrite (pathWritable : Bool) (openFailMsg : String) : Bool :=
  (mkQFile pathWritable openFailMsg).isWritable

/-- Pair each list element with its position, starting at `i`. -/
def enumFrom : Nat → List α → List (Nat × α)
  | _, [] => []
  | i, a :: rest => (i, a) :: enumFrom (i + 1) rest

/-! ### Theorems -/

/-- A setter changes the presence mask by or-ing in its flag. -/
theorem applyOp_fields (md : KDynamicWallpaperMetaData) (op : SetterOp) :
    (applyOp md op).fields = md.fields ||| flagOf op := by
  cases op <;> rfl

/-- The presence mask of a fold of setters is the fold of their flags. -/
theorem foldl_applyOp_fields (ops : List SetterOp) :
    ∀ md : KDynamicWallpaperMetaData,
      (ops.foldl applyOp md).fields = ops.foldl (fun acc op => acc ||| flagOf op) md.fields := by
  induction ops with
  | nil => intro md; rfl
  | cons op rest ih =>
      intro md
      simp only [List.foldl_cons, ih, applyOp_fields]

/-- C8: for every sequence of setter calls on a metadata record, `fields()`
equals the bitwise union of the presence flags of the setters that were called,
and `isValid()` is true iff that union is non-zero. -/
theorem fields_eq_union_of_setters (ops : List SetterOp) :
    (applyOps ops).fields = unionFlags ops ∧
    (applyOps ops).isValid = (unionFlags ops != 0) := by
  have h := foldl_applyOp_fields ops KDynamicWallpaperMetaData.empty
  have hfields : (applyOps ops).fields = unionFlags ops := by
    simpa [applyOps, unionFlags, KDynamicWallpaperMetaData.empty] using h
  exact ⟨hfields, by simp [KDynamicWallpaperMetaData.isValid, hfields]⟩

/-- C7: `canWrite(fileName)` returns false for every path, writable or not,
because it probes `QFile::isWritable()` on a file object that was never opened
(an unopened device has no `WriteOnly` open mode). -/
theorem canWrite_file_always_false (pathWritable : Bool) (openFailMsg : String) :
    KDynamicWallpaperWriter.canWrite pathWritable openFailMsg = false :=
  rfl

/-- C9: `setImages` stores a same-length sequence in which every image has the
`Format_RGB888` layout, regardless of each input image's original layout. -/
theorem setImages_normalizes (w : KDynamicWallpaperWriter) (imgs : List QImage) :
    ((w.setImages imgs).images).length = imgs.length ∧
    ((w.setImages imgs).images).map QImage.format =
      List.replicate imgs.length ImageFormat.Format_RGB888 := by
  constructor
  · simp [KDynamicWallpaperWriter.setImages]
  · show (imgs.map fun img => img.convertToFormat ImageFormat.Format_RGB888).map QImage.format
        = List.replicate imgs.length ImageFormat.Format_RGB888
    induction imgs with
    | nil => rfl
    | cons img rest ih =>
        simpa [QImage.convertToFormat, List.replicate_succ] using ih

/-- C10: `setMetaData` touches only the metadata sequence and `setImages`
touches only the image sequence; the error code and error string are unchanged
by both. -/
theorem setters_touch_only_their_sequence (w : KDynamicWallpaperWriter)
    (mds : List KDynamicWallpaperMetaData) (imgs : List QImage) :
    (w.setMetaData mds).images = w.images ∧
    (w.setMetaData mds).error = w.error ∧
    (w.setMetaData mds).errorString = w.errorString ∧
    (w.setMetaData mds).metaData = mds ∧
    (w.setImages imgs).metaData = w.metaData ∧
    (w.setImages imgs).error = w.error ∧
    (w.setImages imgs).errorString = w.errorString :=
  ⟨rfl, rfl, rfl, rfl, rfl, rfl, rfl⟩

/-- C3 counterexample: on a concrete device that is open but not writable, the
claim as stated fails, because the recorded message is
`"The device is not open for writing"` (capital `T`), not
`"the device is not open for writing"`. -/
theorem flush_readonly_message_counterexample :
    ¬ ((KDynamicWallpaperWriter.empty.flush ⟨true, false, true, "", []⟩
          ⟨fun _ => true, fun _ => true, fun _ => Except.ok []⟩ []).1 = false ∧
       ((KDynamicWallpaperWriter.empty.flush ⟨true, false, true, "", []⟩
          ⟨fun _ => true, fun _ => true, fun _ => Except.ok []⟩ []).2.1).error =
          WallpaperWriterError.DeviceError ∧
       ((KDynamicWallpaperWriter.empty.flush ⟨true, false, true, "", []⟩
          ⟨fun _ => true, fun _ => true, fun _ => Except.ok []⟩ []).2.1).errorString =
          "the device is not open for writing" ∧
       ((KDynamicWallpaperWriter.empty.flush ⟨true, false, true, "", []⟩
          ⟨fun _ => true, fun _ => true, fun _ => Except.ok []⟩ []).2.2).written = []) := by
  decide

/-- C3 (amended): flushing to a device that is already open but not open for
writing returns false, records `DeviceError` with the message
`"The device is not open for writing"`, and leaves the device (in particular
its written bytes) untouched. -/
theorem flush_readonly_device (w : KDynamicWallpaperWriter) (dev : QIODevice)
    (env : EncoderEnv) (tpl : List Char)
    (h1 : dev.isOpenB = true) (h2 : dev.writableMode = false) :
    (w.flush dev env tpl).1 = false ∧
    ((w.flush dev env tpl).2.1).error = WallpaperWriterError.DeviceError ∧
    ((w.flush dev env tpl).2.1).errorString = "The device is not open for writing" ∧
    (w.flush dev env tpl).2.2 = dev := by
  simp [KDynamicWallpaperWriter.flush, h1, h2, KDynamicWallpaperWriter.error,
    KDynamicWallpaperWriter.errorString]

/-- Witness for the amended C3 at a concrete read-only device. -/
theorem flush_readonly_device_witness :
    (KDynamicWallpaperWriter.empty.flush ⟨true, false, true, "", []⟩
        ⟨fun _ => true, fun _ => true, fun _ => Except.ok []⟩ []).1 = false ∧
    ((KDynamicWallpaperWriter.empty.flush ⟨true, false, true, "", []⟩
        ⟨fun _ => true, fun _ => true, fun _ => Except.ok []⟩ []).2.1).error =
        WallpaperWriterError.DeviceError ∧
    ((KDynamicWallpaperWriter.empty.flush ⟨true, false, true, "", []⟩
        ⟨fun _ => true, fun _ => true, fun _ => Except.ok []⟩ []).2.1).errorString =
        "The device is not open for writing" ∧
    (KDynamicWallpaperWriter.empty.flush ⟨true, false, true, "", []⟩
        ⟨fun _ => true, fun _ => true, fun _ => Except.ok []⟩ []).2.2 =
      ⟨true, false, true, "", []⟩ :=
  flush_readonly_device _ _ _ _ rfl rfl

/-- C4: once the destination opened successfully, `flush` returns true either
way; an encoder-finalize failure records `EncoderError` with the encoder's
diagnostic text and writes nothing, while a successful finalize writes the
encoder's output bytes to the destination verbatim. -/
theorem flush_encoder_outcome (w : KDynamicWallpaperWriter) (dev : QIODevice)
    (env : EncoderEnv) (tpl : List Char) (msg : String) (out : List Nat)
    (hopen : dev.opensForWriting = true) :
    (w.flush dev env tpl).1 = true ∧
    (env.finish (encodeLoop env (serializeMetaData tpl w.metaData) 0 w.images) =
        Except.error msg →
      ((w.flush dev env tpl).2.1).error = WallpaperWriterError.EncoderError ∧
      ((w.flush dev env tpl).2.1).errorString = msg ∧
      ((w.flush dev env tpl).2.2).written = dev.written) ∧
    (env.finish (encodeLoop env (serializeMetaData tpl w.metaData) 0 w.images) =
        Except.ok out →
      ((w.flush dev env tpl).2.2).written = dev.written ++ out) := by
  unfold QIODevice.opensForWriting at hopen
  by_cases hO : dev.isOpenB
  · rw [if_pos hO] at hopen
    refine ⟨?_, fun herr => ?_, fun hok => ?_⟩
    · simp [KDynamicWallpaperWriter.flush, hO, hopen]
    · refine ⟨?_, ?_, ?_⟩ <;>
        simp [KDynamicWallpaperWriter.flush, KDynamicWallpaperWriterPrivate.flush, hO, hopen,
          herr, KDynamicWallpaperWriter.error, KDynamicWallpaperWriter.errorString]
    · simp [KDynamicWallpaperWriter.flush, KDynamicWallpaperWriterPrivate.flush, hO, hopen, hok]
  · rw [if_neg hO] at hopen
    refine ⟨?_, fun herr => ?_, fun hok => ?_⟩
    · simp [KDynamicWallpaperWriter.flush, hO, hopen]
    · refine ⟨?_, ?_, ?_⟩ <;>
        simp [KDynamicWallpaperWriter.flush, KDynamicWallpaperWriterPrivate.flush, hO, hopen,
          herr, KDynamicWallpaperWriter.error, KDynamicWallpaperWriter.errorString]
    · simp [KDynamicWallpaperWriter.flush, KDynamicWallpaperWriterPrivate.flush, hO, hopen, hok]

/-- Witness for C4 at a concrete open writable device and an encoder whose
finalize step yields the bytes `[7]`. -/
theorem flush_encoder_outcome_witness :
    (KDynamicWallpaperWriter.empty.flush ⟨true, true, true, "", [9]⟩
        ⟨fun _ => true, fun _ => true, fun _ => Except.ok [7]⟩ []).1 = true ∧
    ((⟨fun _ => true, fun _ => true, fun _ => Except.ok [7]⟩ : EncoderEnv).finish
        (encodeLoop ⟨fun _ => true, fun _ => true, fun _ => Except.ok [7]⟩
          (serializeMetaData [] KDynamicWallpaperWriter.empty.metaData) 0
          KDynamicWallpaperWriter.empty.images) = Except.error "boom" →
      ((KDynamicWallpaperWriter.empty.flush ⟨true, true, true, "", [9]⟩
          ⟨fun _ => true, fun _ => true, fun _ => Except.ok [7]⟩ []).2.1).error =
          WallpaperWriterError.EncoderError ∧
      ((KDynamicWallpaperWriter.empty.flush ⟨true, true, true, "", [9]⟩
          ⟨fun _ => true, fun _ => true, fun _ => Except.ok [7]⟩ []).2.1).errorString = "boom" ∧
      ((KDynamicWallpaperWriter.empty.flush ⟨true, true, true, "", [9]⟩
          ⟨fun _ => true, fun _ => true, fun _ => Except.ok [7]⟩ []).2.2).written = [9]) ∧
    ((⟨fun _ => true, fun _ => true, fun _ => Except.ok [7]⟩ : EncoderEnv).finish
        (encodeLoop ⟨fun _ => true, fun _ => true, fun _ => Except.ok [7]⟩
          (serializeMetaData [] KDynamicWallpaperWriter.empty.metaData) 0
          KDynamicWallpaperWriter.empty.images) = Except.ok [7] →
      ((KDynamicWallpaperWriter.empty.flush ⟨true, true, true, "", [9]⟩
          ⟨fun _ => true, fun _ => true, fun _ => Except.ok [7]⟩ []).2.2).written = [9] ++ [7]) :=
  flush_encoder_outcome KDynamicWallpaperWriter.empty ⟨true, true, true, "", [9]⟩
    ⟨fun _ => true, fun _ => true, fun _ => Except.ok [7]⟩ [] "boom" [7] rfl

/-- The per-frame loop keeps exactly the frames whose conversion and hand-off
both succeed, in input order, each carrying the full XMP block. -/
theorem encodeLoop_eq_filter (env : EncoderEnv) (xmp : List Char) :
    ∀ (i : Nat) (images : List QImage),
      encodeLoop env xmp i images =
        ((enumFrom i images).filter fun p => env.convOk p.1 && env.addOk p.1).map
          (fun p => AvifFrame.mk p.1 p.2 xmp) := by
  intro i images
  induction images generalizing i with
  | nil => rfl
  | cons img rest ih =>
      by_cases hc : env.convOk i
      · by_cases ha : env.addOk i
        · simp [encodeLoop, enumFrom, hc, ha, ih]
        · simp [encodeLoop, enumFrom, hc, ha, ih]
      · simp [encodeLoop, enumFrom, hc, ih]

/-- C5: a failed per-frame conversion or hand-off discards only that frame: the
frames reaching the encoder are exactly the surviving ones in input order, and
as long as the finalize step succeeds the writer — its error kind and error
string included — is completely unchanged, whatever the per-frame outcomes
were. -/
theorem per_frame_failures_nonfatal (env : EncoderEnv) (xmp : List Char) (i : Nat)
    (images : List QImage) (w : KDynamicWallpaperWriter) (dev : QIODevice)
    (tpl : List Char) (out : List Nat)
    (hfin : env.finish (encodeLoop env (serializeMetaData tpl w.metaData) 0 w.images) =
      Except.ok out) :
    encodeLoop env xmp i images =
      ((enumFrom i images).filter fun p => env.convOk p.1 && env.addOk p.1).map
        (fun p => AvifFrame.mk p.1 p.2 xmp) ∧
    (KDynamicWallpaperWriterPrivate.flush w dev env tpl).1 = w := by
  refine ⟨encodeLoop_eq_filter env xmp i images, ?_⟩
  simp [KDynamicWallpaperWriterPrivate.flush, hfin]

/-- Witness for C5: an encoder whose second frame fails conversion; with two
one-pixel images only frames 0 and 2 survive, and a successful finalize leaves
the writer untouched. -/
theorem per_frame_failures_nonfatal_witness :
    encodeLoop ⟨fun i => i != 1, fun _ => true, fun _ => Except.ok []⟩ [] 0
        [⟨ImageFormat.Format_RGB888, 1, 1, [0]⟩, ⟨ImageFormat.Format_RGB888, 1, 1, [1]⟩,
         ⟨ImageFormat.Format_RGB888, 1, 1, [2]⟩] =
      ((enumFrom 0
          [⟨ImageFormat.Format_RGB888, 1, 1, [0]⟩, ⟨ImageFormat.Format_RGB888, 1, 1, [1]⟩,
           ⟨ImageFormat.Format_RGB888, 1, 1, [2]⟩]).filter fun p =>
        (⟨fun i => i != 1, fun _ => true, fun _ => Except.ok []⟩ : EncoderEnv).convOk p.1 &&
        (⟨fun i => i != 1, fun _ => true, fun _ => Except.ok []⟩ : EncoderEnv).addOk p.1).map
          (fun p => AvifFrame.mk p.1 p.2 []) ∧
    (KDynamicWallpaperWriterPrivate.flush KDynamicWallpaperWriter.empty ⟨true, true, true, "", []⟩
        ⟨fun i => i != 1, fun _ => true, fun _ => Except.ok []⟩ []).1 =
      KDynamicWallpaperWriter.empty :=
  per_frame_failures_nonfatal ⟨fun i => i != 1, fun _ => true, fun _ => Except.ok []⟩ [] 0
    [⟨ImageFormat.Format_RGB888, 1, 1, [0]⟩, ⟨ImageFormat.Format_RGB888, 1, 1, [1]⟩,
     ⟨ImageFormat.Format_RGB888, 1, 1, [2]⟩]
    KDynamicWallpaperWriter.empty ⟨true, true, true, "", []⟩ [] [] rfl

/-- C6 counterexample: a writer that recorded a `DeviceError` earlier, flushed
successfully to an open writable device, still reports the old error — the
claim that a successful flush resets `error()` to `NoError` and `errorString()`
to `"No error"` fails at this input. -/
theorem successful_flush_error_not_reset_counterexample :
    ((⟨WallpaperWriterError.DeviceError, "earlier failure", [], []⟩ :
        KDynamicWallpaperWriter).flush ⟨true, true, true, "", []⟩
        ⟨fun _ => true, fun _ => true, fun _ => Except.ok []⟩ []).1 = true ∧
    ¬ ((((⟨WallpaperWriterError.DeviceError, "earlier failure", [], []⟩ :
           KDynamicWallpaperWriter).flush ⟨true, true, true, "", []⟩
           ⟨fun _ => true, fun _ => true, fun _ => Except.ok []⟩ []).2.1).error =
         WallpaperWriterError.NoError ∧
       (((⟨WallpaperWriterError.DeviceError, "earlier failure", [], []⟩ :
           KDynamicWallpaperWriter).flush ⟨true, true, true, "", []⟩
           ⟨fun _ => true, fun _ => true, fun _ => Except.ok []⟩ []).2.1).errorString =
         "No error") := by
  decide

/-- C6 (amended): a flush that completes successfully (device opened, encoder
finalize succeeded) returns true and leaves the writer — its error code and
error string included — exactly as it was; `error()` therefore reports
`NoError` afterwards only when no error had been recorded before. -/
theorem successful_flush_preserves_error (w : KDynamicWallpaperWriter) (dev : QIODevice)
    (env : EncoderEnv) (tpl : List Char) (out : List Nat)
    (h1 : dev.opensForWriting = true)
    (h2 : env.finish (encodeLoop env (serializeMetaData tpl w.metaData) 0 w.images) =
      Except.ok out) :
    (w.flush dev env tpl).1 = true ∧ (w.flush dev env tpl).2.1 = w := by
  unfold QIODevice.opensForWriting at h1
  by_cases hO : dev.isOpenB
  · rw [if_pos hO] at h1
    constructor <;>
      simp [KDynamicWallpaperWriter.flush, KDynamicWallpaperWriterPrivate.flush, hO, h1, h2]
  · rw [if_neg hO] at h1
    constructor <;>
      simp [KDynamicWallpaperWriter.flush, KDynamicWallpaperWriterPrivate.flush, hO, h1, h2]

/-- Witness for the amended C6: a writer with an earlier `DeviceError` flushed
successfully keeps that exact error state. -/
theorem successful_flush_preserves_error_witness :
    ((⟨WallpaperWriterError.DeviceError, "earlier failure", [], []⟩ :
        KDynamicWallpaperWriter).flush ⟨true, true, true, "", []⟩
        ⟨fun _ => true, fun _ => true, fun _ => Except.ok []⟩ []).1 = true ∧
    ((⟨WallpaperWriterError.DeviceError, "earlier failure", [], []⟩ :
        KDynamicWallpaperWriter).flush ⟨true, true, true, "", []⟩
        ⟨fun _ => true, fun _ => true, fun _ => Except.ok []⟩ []).2.1 =
      ⟨WallpaperWriterError.DeviceError, "earlier failure", [], []⟩ :=
  successful_flush_preserves_error
    ⟨WallpaperWriterError.DeviceError, "earlier failure", [], []⟩
    ⟨true, true, true, "", []⟩ ⟨fun _ => true, fun _ => true, fun _ => Except.ok []⟩ [] [] rfl rfl

/-- Looking up `"CrossFade"` in a serialized record. -/
theorem lookup_toJson_crossFade (md : KDynamicWallpaperMetaData) :
    lookupJson "CrossFade" md.toJson =
      if md.fields &&& CrossFadeField ≠ 0 then
        some (JsonValue.jbool (md.crossFadeMode == CrossFadeMode.crossFade))
      else none := by
  unfold KDynamicWallpaperMetaData.toJson
  split_ifs <;> simp_all [lookupJson]

/-- Looking up `"Time"` in a serialized record. -/
theorem lookup_toJson_time (md : KDynamicWallpaperMetaData) :
    lookupJson "Time" md.toJson =
      if md.fields &&& TimeField ≠ 0 then some (JsonValue.jnum md.time) else none := by
  unfold KDynamicWallpaperMetaData.toJson
  split_ifs <;> simp_all [lookupJson]

/-- Looking up `"SolarAzimuth"` in a serialized record. -/
theorem lookup_toJson_solarAzimuth (md : KDynamicWallpaperMetaData) :
    lookupJson "SolarAzimuth" md.toJson =
      if md.fields &&& SolarAzimuthField ≠ 0 then some (JsonValue.jnum md.solarAzimuth)
      else none := by
  unfold KDynamicWallpaperMetaData.toJson
  split_ifs <;> simp_all [lookupJson]

/-- Looking up `"SolarElevation"` in a serialized record. -/
theorem lookup_toJson_solarElevation (md : KDynamicWallpaperMetaData) :
    lookupJson "SolarElevation" md.toJson =
      if md.fields &&& SolarElevationField ≠ 0 then some (JsonValue.jnum md.solarElevation)
      else none := by
  unfold KDynamicWallpaperMetaData.toJson
  split_ifs <;> simp_all [lookupJson]

/-- Looking up `"Index"` in a serialized record. -/
theorem lookup_toJson_index (md : KDynamicWallpaperMetaData) :
    lookupJson "Index" md.toJson =
      if md.fields &&& IndexField ≠ 0 then some (JsonValue.jnum (md.index : ℚ)) else none := by
  unfold KDynamicWallpaperMetaData.toJson
  split_ifs <;> simp_all [lookupJson]

/-- A 5-bit mask is recovered from its per-flag tests. -/
theorem mask_recompose : ∀ m : Nat, m < 32 →
    ((((if m &&& 1 ≠ 0 then 1 else 0) ||| (if m &&& 2 ≠ 0 then 2 else 0)) |||
        (if m &&& 4 ≠ 0 then 4 else 0)) ||| (if m &&& 8 ≠ 0 then 8 else 0)) |||
      (if m &&& 16 ≠ 0 then 16 else 0) = m := by
  decide

/-- Bitwise or keeps 5-bit masks 5-bit. -/
theorem or_lt_32 {x y : Nat} (hx : x < 32) (hy : y < 32) : x ||| y < 32 :=
  Nat.bitwise_lt (n := 5) hx hy

/-- Each setter flag is a 5-bit mask. -/
theorem flagOf_lt (op : SetterOp) : flagOf op < 32 := by
  cases op <;>
    simp [flagOf, CrossFadeField, TimeField, SolarAzimuthField, SolarElevationField, IndexField]

/-- A record built purely from setter calls has a 5-bit presence mask. -/
theorem applyOps_fields_lt (ops : List SetterOp) : (applyOps ops).fields < 32 := by
  suffices h : ∀ md : KDynamicWallpaperMetaData, md.fields < 32 →
      (ops.foldl applyOp md).fields < 32 from
    h KDynamicWallpaperMetaData.empty (by decide)
  induction ops with
  | nil => intro md hmd; exact hmd
  | cons op rest ih =>
      intro md hmd
      simp only [List.foldl_cons]
      exact ih (applyOp md op) (by rw [applyOp_fields]; exact or_lt_32 hmd (flagOf_lt op))

/-- Round trip recovers the presence mask, for any record whose mask uses only
the five defined bits. -/
theorem fromJson_toJson_fields (md : KDynamicWallpaperMetaData) (h : md.fields < 32) :
    (KDynamicWallpaperMetaData.fromJson md.toJson).fields = md.fields := by
  have hm := mask_recompose md.fields h
  unfold KDynamicWallpaperMetaData.fromJson
  simp only [lookup_toJson_crossFade, lookup_toJson_time, lookup_toJson_solarAzimuth,
    lookup_toJson_solarElevation, lookup_toJson_index]
  by_cases h1 : md.fields &&& CrossFadeField ≠ 0 <;>
  by_cases h2 : md.fields &&& TimeField ≠ 0 <;>
  by_cases h3 : md.fields &&& SolarAzimuthField ≠ 0 <;>
  by_cases h4 : md.fields &&& SolarElevationField ≠ 0 <;>
  by_cases h5 : md.fields &&& IndexField ≠ 0 <;>
  simp_all [CrossFadeField, TimeField, SolarAzimuthField, SolarElevationField, IndexField,
    Rat.den_intCast]

/-- Round trip recovers the cross-fade mode when present. -/
theorem fromJson_toJson_crossFadeMode (md : KDynamicWallpaperMetaData) :
    (KDynamicWallpaperMetaData.fromJson md.toJson).crossFadeMode =
      if md.fields &&& CrossFadeField ≠ 0 then md.crossFadeMode
      else CrossFadeMode.noCrossFade := by
  unfold KDynamicWallpaperMetaData.fromJson
  simp only [lookup_toJson_crossFade, lookup_toJson_time, lookup_toJson_solarAzimuth,
    lookup_toJson_solarElevation, lookup_toJson_index]
  by_cases h1 : md.fields &&& CrossFadeField ≠ 0
  · cases hmode : md.crossFadeMode <;> simp_all <;> rfl
  · simp [h1]

/-- Round trip recovers the time when present. -/
theorem fromJson_toJson_time (md : KDynamicWallpaperMetaData) :
    (KDynamicWallpaperMetaData.fromJson md.toJson).time =
      if md.fields &&& TimeField ≠ 0 then md.time else 0 := by
  unfold KDynamicWallpaperMetaData.fromJson
  simp only [lookup_toJson_crossFade, lookup_toJson_time, lookup_toJson_solarAzimuth,
    lookup_toJson_solarElevation, lookup_toJson_index]
  by_cases h2 : md.fields &&& TimeField ≠ 0 <;> simp [h2]

/-- Round trip recovers the solar azimuth when present. -/
theorem fromJson_toJson_solarAzimuth (md : KDynamicWallpaperMetaData) :
    (KDynamicWallpaperMetaData.fromJson md.toJson).solarAzimuth =
      if md.fields &&& SolarAzimuthField ≠ 0 then md.solarAzimuth else 0 := by
  unfold KDynamicWallpaperMetaData.fromJson
  simp only [lookup_toJson_crossFade, lookup_toJson_time, lookup_toJson_solarAzimuth,
    lookup_toJson_solarElevation, lookup_toJson_index]
  by_cases h3 : md.fields &&& SolarAzimuthField ≠ 0 <;> simp [h3]

/-- Round trip recovers the solar elevation when present. -/
theorem fromJson_toJson_solarElevation (md : KDynamicWallpaperMetaData) :
    (KDynamicWallpaperMetaData.fromJson md.toJson).solarElevation =
      if md.fields &&& SolarElevationField ≠ 0 then md.solarElevation else 0 := by
  unfold KDynamicWallpaperMetaData.fromJson
  simp only [lookup_toJson_crossFade, lookup_toJson_time, lookup_toJson_solarAzimuth,
    lookup_toJson_solarElevation, lookup_toJson_index]
  by_cases h4 : md.fields &&& SolarElevationField ≠ 0 <;> simp [h4]

/-- Round trip recovers the index when present. -/
theorem fromJson_toJson_index (md : KDynamicWallpaperMetaData) :
    (KDynamicWallpaperMetaData.fromJson md.toJson).index =
      if md.fields &&& IndexField ≠ 0 then md.index else 0 := by
  unfold KDynamicWallpaperMetaData.fromJson
  simp only [lookup_toJson_crossFade, lookup_toJson_time, lookup_toJson_solarAzimuth,
    lookup_toJson_solarElevation, lookup_toJson_index]
  by_cases h5 : md.fields &&& IndexField ≠ 0 <;>
    simp [h5, Rat.den_intCast, Rat.num_intCast]

/-- Round trip preserves the whole observable content of any record whose
presence mask uses only the five defined bits. -/
theorem fromJson_toJson_observe (md : KDynamicWallpaperMetaData) (h : md.fields < 32) :
    (KDynamicWallpaperMetaData.fromJson md.toJson).observe = md.observe := by
  unfold KDynamicWallpaperMetaData.observe
  rw [fromJson_toJson_fields md h, fromJson_toJson_crossFadeMode, fromJson_toJson_time,
    fromJson_toJson_solarAzimuth, fromJson_toJson_solarElevation, fromJson_toJson_index]
  split_ifs <;> rfl

/-- C2: for every record built purely from setter calls (the empty record
included), `fromJson(toJson(record))` yields a record with the same presence
bitmask and equal values for every present field. -/
theorem metadata_json_roundtrip (ops : List SetterOp) :
    (KDynamicWallpaperMetaData.fromJson (applyOps ops).toJson).observe =
      (applyOps ops).observe :=
  fromJson_toJson_observe (applyOps ops) (applyOps_fields_lt ops)

/-- A list starts with itself. -/
theorem listStartsWith_append (xs ys : List Char) : listStartsWith xs (xs ++ ys) = true := by
  induction xs with
  | nil => rfl
  | cons x xs ih => simp [listStartsWith, ih]

/-- Replacing leaves a string without occurrences of the pattern untouched. -/
theorem replaceAll_no_occur (pat repl : List Char) :
    ∀ s, occursIn pat s = false → replaceAll pat repl s = s := by
  intro s
  induction s with
  | nil => intro _; rw [replaceAll]
  | cons c rest ih =>
      intro h
      rw [occursIn, Bool.or_eq_false_iff] at h
      rw [replaceAll, dif_neg (by simp [h.1])]
      exact congrArg (List.cons c) (ih h.2)

/-- Replacing on a string holding exactly one occurrence of the pattern
replaces that occurrence and preserves everything around it byte for byte. -/
theorem replaceAll_single (pat repl : List Char) (hne : pat ≠ []) :
    ∀ pre post : List Char,
      (∀ i, i < pre.length →
        listStartsWith pat ((pre ++ pat ++ post).drop i) = false) →
      occursIn pat post = false →
      replaceAll pat repl (pre ++ pat ++ post) = pre ++ repl ++ post := by
  obtain ⟨p, ps, rfl⟩ : ∃ p ps, pat = p :: ps := by
    cases pat with
    | nil => exact absurd rfl hne
    | cons p ps => exact ⟨p, ps, rfl⟩
  intro pre
  induction pre with
  | nil =>
      intro post _ hpost
      show replaceAll (p :: ps) repl (p :: (ps ++ post)) = repl ++ post
      rw [replaceAll, dif_pos ⟨hne, listStartsWith_append (p :: ps) post⟩,
        List.length_cons, Nat.add_sub_cancel, List.drop_left,
        replaceAll_no_occur _ _ post hpost]
  | cons c pre' ih =>
      intro post hpre hpost
      have h0 := hpre 0 (by simp)
      rw [List.drop_zero] at h0
      rw [show (((c :: pre') ++ (p :: ps)) ++ post : List Char) =
        c :: ((pre' ++ (p :: ps)) ++ post) from rfl] at h0
      have hshift : ∀ i, i < pre'.length →
          listStartsWith (p :: ps) ((pre' ++ (p :: ps) ++ post).drop i) = false := by
        intro i hi
        have h' := hpre (i + 1) (by simp only [List.length_cons]; omega)
        rw [show (((c :: pre') ++ (p :: ps)) ++ post : List Char) =
          c :: ((pre' ++ (p :: ps)) ++ post) from rfl, List.drop_succ_cons] at h'
        exact h'
      show replaceAll (p :: ps) repl (c :: ((pre' ++ (p :: ps)) ++ post)) =
        c :: ((pre' ++ repl) ++ post)
      rw [replaceAll, dif_neg]
      · exact congrArg (List.cons c) (ih post hshift hpost)
      · rintro ⟨-, hs⟩
        rw [h0] at hs
        exact absurd hs (by decide)

/-- C1: for every metadata list, when the template holds exactly one occurrence
of the placeholder token `"base64"`, the metadata block built during flush is
the template with that one occurrence replaced by the base64 encoding of the
compact UTF-8 JSON array of `toJson()` of every record in list order (valid or
not), everything around it preserved byte for byte. -/
theorem serializeMetaData_template_substitution (metaData : List KDynamicWallpaperMetaData)
    (pre post : List Char)
    (hpre : ∀ i, i < pre.length →
      listStartsWith placeholderBase64 ((pre ++ placeholderBase64 ++ post).drop i) = false)
    (hpost : occursIn placeholderBase64 post = false) :
    serializeMetaData (pre ++ placeholderBase64 ++ post) metaData =
      pre ++
        base64Encode (utf8Encode (compactJsonArray
          (metaData.map KDynamicWallpaperMetaData.toJson))) ++ post := by
  unfold serializeMetaData
  exact replaceAll_single placeholderBase64 _ (by decide) pre post hpre hpost

/-- Witness for C1 at a concrete template `<xmp>base64</xmp>` and the empty
metadata list. -/
theorem serializeMetaData_template_substitution_witness :
    serializeMetaData ("<xmp>".data ++ placeholderBase64 ++ "</xmp>".data) [] =
      "<xmp>".data ++
        base64Encode (utf8Encode (compactJsonArray
          (List.map KDynamicWallpaperMetaData.toJson []))) ++ "</xmp>".data :=
  serializeMetaData_template_substitution [] "<xmp>".data "</xmp>".data
    (by decide) (by decide)

end DynamicWallpaper
